import Mathlib

/-!
Verification development for the dcc2cvh / cfdb repository.

The Python sources are shallowly embedded as executable Lean definitions:
pure functions become Lean functions on `List Char` / `Int` / `Nat`;
MongoDB-backed state becomes explicit state passing over document records;
fallible code returns `Except`.  Each definition's doc comment names the
source file and lines it embeds.
-/

set_option maxRecDepth 4096

/-! ## Python string primitives

Python `str` values are modelled as `List Char`; `str.strip()`, `int(...)`
and `split("-", 1)` are modelled below exactly as the range negotiator in
`src/cfdb/services/drs.py` uses them (ASCII inputs).
-/

/-- The default whitespace set of Python `str.strip()` (ASCII part). -/
def isPySpace (c : Char) : Bool :=
  c = ' ' || c = '\t' || c = '\n' || c = '\r' || c = '\x0b' || c = '\x0c'

/-- Python `s.strip()`: drop leading and trailing whitespace. -/
def stripChars (s : List Char) : List Char :=
  ((s.dropWhile isPySpace).reverse.dropWhile isPySpace).reverse

/-- Decimal digit run to a natural number; `none` when empty or a non-digit occurs. -/
def digitsToNat : List Char → Option Nat
  | [] => none
  | [c] => if c.isDigit then some (c.toNat - '0'.toNat) else none
  | c :: rest =>
    if c.isDigit then
      match digitsToNat rest with
      | some n => some ((c.toNat - '0'.toNat) * 10 ^ rest.length + n)
      | none => none
    else none

/-- Python `int(s)` on an already-stripped string: an optional sign followed by
decimal digits; anything else raises `ValueError` (modelled as `none`). -/
def pyInt (s : List Char) : Option Int :=
  match s with
  | '+' :: rest => (digitsToNat rest).map Int.ofNat
  | '-' :: rest => (digitsToNat rest).map (fun n => -(n : Int))
  | _ => (digitsToNat s).map Int.ofNat

/-- Python `s.split("-", 1)`: the parts before and after the first dash.
Only called on inputs known to contain a dash. -/
def splitDash : List Char → (List Char × List Char)
  | [] => ([], [])
  | c :: rest =>
    if c = '-' then ([], rest)
    else
      let p := splitDash rest
      (c :: p.1, p.2)

/-! ## Range negotiator — `parse_range_header`
Embedded from `src/src/cfdb/services/drs.py`, lines 72-155. -/

/-- Outcomes of `parse_range_header`: `valueError` models a raised `ValueError`
(malformed input), `notSatisfiable` models a raised `RangeNotSatisfiableError`
carrying the file size (`src/src/cfdb/services/drs.py` lines 14-19). -/
inductive RangeError
  | valueError (msg : String)
  | notSatisfiable (file_size : Int)
deriving DecidableEq, Repr

/-- The bounds validation and clamping that ends `parse_range_header`
(`src/src/cfdb/services/drs.py` lines 140-155): negative bounds and
`start > end` are `ValueError`; `start >= file_size` raises
`RangeNotSatisfiableError(file_size)`; the end is clamped to
`file_size - 1`; returns `(start, end, content_length)`. -/
def checkBounds (start e file_size : Int) : Except RangeError (Int × Int × Int) :=
  if start < 0 ∨ e < 0 then .error (.valueError "Range values cannot be negative")
  else if start > e then .error (.valueError "Start byte must be <= end byte")
  else if start ≥ file_size then .error (.notSatisfiable file_size)
  else
    let e2 := min e (file_size - 1)
    .ok (start, e2, e2 - start + 1)

/-- The suffix form `bytes=-N` (`src/src/cfdb/services/drs.py` lines 110-119):
a parsed suffix length `<= 0` is a `ValueError`; otherwise the range is
`start = max(0, file_size - N)`, `end = file_size - 1`, then the shared
bounds validation runs. -/
def suffixBranch (suffix_length file_size : Int) : Except RangeError (Int × Int × Int) :=
  if suffix_length ≤ 0 then .error (.valueError "Suffix length must be positive")
  else checkBounds (max 0 (file_size - suffix_length)) (file_size - 1) file_size

/-- The body of `parse_range_header` after the `bytes=` prefix has been
removed and the spec stripped (`src/src/cfdb/services/drs.py` lines 99-155):
multipart specs and specs without a dash are rejected; the spec is split at
the first dash; the three textual forms are dispatched exactly as in the
source, each ending in the shared bounds validation. -/
def parseRangeSpec (spec : List Char) (file_size : Int) : Except RangeError (Int × Int × Int) :=
  if spec.contains ',' then
    .error (.valueError "Multipart range requests are not supported")
  else if ¬ spec.contains '-' then
    .error (.valueError "Invalid range format: missing \x27-\x27")
  else
    let p := splitDash spec
    let start_str := stripChars p.1
    let end_str := stripChars p.2
    if start_str = [] ∧ end_str ≠ [] then
      match pyInt end_str with
      | none => .error (.valueError "Suffix length must be an integer")
      | some suffix_length => suffixBranch suffix_length file_size
    else if start_str ≠ [] ∧ end_str = [] then
      match pyInt start_str with
      | none => .error (.valueError "Start byte must be an integer")
      | some s => checkBounds s (file_size - 1) file_size
    else if start_str ≠ [] ∧ end_str ≠ [] then
      match pyInt start_str, pyInt end_str with
      | some s, some e => checkBounds s e file_size
      | _, _ => .error (.valueError "Start and end bytes must be integers")
    else .error (.valueError "Invalid range format")

/-- `parse_range_header(range_header, file_size)` from
`src/src/cfdb/services/drs.py` lines 72-155: requires the `bytes=` prefix,
strips the remainder, and delegates to `parseRangeSpec`. -/
def parse_range_header (header : List Char) (file_size : Int) :
    Except RangeError (Int × Int × Int) :=
  if "bytes=".data.isPrefixOf header then
    parseRangeSpec (stripChars (header.drop 6)) file_size
  else .error (.valueError "Range header must start with \x27bytes=\x27")

deriving instance DecidableEq for Except

/-! ## Sync lock — `src/src/cfdb/services/locks.py`

The `locks` collection holds a singleton sync-lock document (`_id = "sync"`).
The store state is `Option SyncLockDoc` (`none` = document absent).
Timestamps are seconds as `Int`; `STALE_LOCK_THRESHOLD = timedelta(hours=1)`
is 3600 seconds.
-/

/-- The sync-lock document (spec section 3; written by
`src/src/cfdb/services/locks.py` lines 45-65). In the model the fields are
always present; the source filter's `active: $exists: False` arm therefore
collapses into the `active = false` arm. -/
structure SyncLockDoc where
  active : Bool
  task_id : String
  dcc_names : List String
  started_at : Int
  updated_at : Int
  completed_at : Option Int
deriving DecidableEq, Repr

/-- `STALE_LOCK_THRESHOLD` (`locks.py` line 21), in seconds. -/
def STALE_LOCK_THRESHOLD : Int := 3600

/-- The acquire filter of `try_acquire_sync_lock` (`locks.py` lines 46-53):
the document matches when `active` is false or `started_at` is older than
`now - STALE_LOCK_THRESHOLD`. -/
def syncFilterMatches (d : SyncLockDoc) (now : Int) : Bool :=
  (!d.active) || decide (d.started_at < now - STALE_LOCK_THRESHOLD)

/-- Errors surfaced by the MongoDB driver. `duplicateKey` is pymongo's
`DuplicateKeyError` (E11000). -/
inductive MongoErr
  | duplicateKey
deriving DecidableEq, Repr

/-- `find_one_and_update` with `upsert=True, return_document=AFTER` on the
filter and `$set` of `locks.py` lines 45-65, as MongoDB executes it:
if the document matches the filter it is updated and returned; if no
document matches and none carries the `_id`, the upsert inserts a document
built from the filter's equality fields plus the `$set` fields and returns
it; if no document matches but the `_id` already exists, the upsert's
insert violates the unique `_id` index and the driver raises
`DuplicateKeyError` (the server's internal retry does not apply because
the re-read document still fails the filter's `$or`).
Returns `(document returned to the caller, new store state)`. -/
def findOneAndUpdateSyncLock (st : Option SyncLockDoc) (task_id : String)
    (dcc_names : List String) (now : Int) :
    Except MongoErr (SyncLockDoc × Option SyncLockDoc) :=
  match st with
  | none =>
    let d : SyncLockDoc := ⟨true, task_id, dcc_names, now, now, none⟩
    .ok (d, some d)
  | some d =>
    if syncFilterMatches d now then
      let d2 : SyncLockDoc :=
        ⟨true, task_id, dcc_names, now, now, d.completed_at⟩
      .ok (d2, some d2)
    else .error .duplicateKey

/-- `try_acquire_sync_lock(task_id, dcc_names)` (`locks.py` lines 24-78):
runs the atomic update above; returns `True` when the returned document's
`task_id` is the caller's; otherwise performs the confirmatory
`find_one` read and returns `True` only when that read shows the caller as
holder, else `False`. A `DuplicateKeyError` from the store is not caught
and propagates. Returns `(acquired, new store state)` on the non-raising
paths. -/
def try_acquire_sync_lock (st : Option SyncLockDoc) (task_id : String)
    (dcc_names : List String) (now : Int) :
    Except MongoErr (Bool × Option SyncLockDoc) :=
  match findOneAndUpdateSyncLock st task_id dcc_names now with
  | .error e => .error e
  | .ok (result, st2) =>
    if result.task_id = task_id then .ok (true, st2)
    else
      match st2 with
      | some existing =>
        if existing.task_id = task_id then .ok (true, st2) else .ok (false, st2)
      | none => .ok (false, st2)

/-- `is_sync_running()` (`locks.py` lines 102-120): true iff the document
exists, is `active`, and is not stale (`now - started_at > threshold` is
reported as not running). -/
def is_sync_running (st : Option SyncLockDoc) (now : Int) : Bool :=
  match st with
  | none => false
  | some lock =>
    if !lock.active then false
    else if now - lock.started_at > STALE_LOCK_THRESHOLD then false
    else true

/-! ## Cutover lock — `src/src/cfdb/services/locks.py` lines 132-211 -/

/-- The cutover-lock document (singleton, `_id = "cutover"`). -/
structure CutoverDoc where
  active : Bool
  dcc : String
  started_at : Int
  completed_at : Option Int
deriving DecidableEq, Repr

/-- `acquire_cutover_lock(dcc)` (`locks.py` lines 132-153): unconditional
upsert setting `active=true, dcc, started_at=now`. -/
def acquire_cutover_lock (st : Option CutoverDoc) (dcc : String) (now : Int) :
    Option CutoverDoc :=
  match st with
  | none => some ⟨true, dcc, now, none⟩
  | some d => some ⟨true, dcc, now, d.completed_at⟩

/-- `release_cutover_lock()` (`locks.py` lines 156-165): `update_one` without
upsert setting `active=false, completed_at=now`; a no-op when the document
is absent. -/
def release_cutover_lock (st : Option CutoverDoc) (now : Int) : Option CutoverDoc :=
  match st with
  | none => none
  | some d => some ⟨false, d.dcc, d.started_at, some now⟩

/-- Outcome of `wait_for_cutover`: the poll loop returned at iteration `i`
having observed the lock clear, raised `TimeoutError` at iteration `i`, or
(`stillPolling`) the supplied observation trace ended before the loop did. -/
inductive WaitOutcome
  | cleared (i : Nat)
  | timedOut (i : Nat)
  | stillPolling
deriving DecidableEq, Repr

/-- The poll loop of `wait_for_cutover()` (`locks.py` lines 168-195) over a
trace of per-iteration observations of the cutover document's activity
(`true` = a document exists with `active` truthy). Time is in deciseconds:
`CUTOVER_POLL_INTERVAL` is 1, `CUTOVER_WAIT_TIMEOUT` is 600, and iteration
`i` starts after `i` completed sleeps, so its elapsed time is `i`.
Each iteration reads the lock; if it is clear the wait returns, otherwise
`TimeoutError` is raised when the elapsed time exceeds the timeout, and the
loop sleeps and repeats otherwise. -/
def waitLoop : List Bool → Nat → WaitOutcome
  | [], _ => .stillPolling
  | activeNow :: rest, i =>
    if activeNow = false then .cleared i
    else if i > 600 then .timedOut i
    else waitLoop rest (i + 1)

/-- `wait_for_cutover()` (`locks.py` lines 168-195), started at elapsed 0. -/
def wait_for_cutover (obs : List Bool) : WaitOutcome :=
  waitLoop obs 0

/-! ## Per-provider cutover section of the sync pipeline

`async with locks.CutoverLock(dcc): clear; load` —
`src/src/cfdb/services/locks.py` lines 198-211 and
`src/src/cfdb/services/sync.py` lines 145-152.
-/

/-- One execution of the cutover block: `duringBody` is the lock state while
the clear/load body runs, `result` the body's outcome (an exception
propagates: `CutoverLock.__aexit__` returns `False`), `finalLock` the lock
state after `__aexit__` ran `release_cutover_lock`. The body itself never
touches the lock document. -/
structure CutoverRun where
  duringBody : Option CutoverDoc
  result : Except String Unit
  finalLock : Option CutoverDoc
deriving DecidableEq, Repr

/-- The cutover section of `_sync_dccs` (`sync.py` lines 150-152):
`__aenter__` acquires the lock, the body (clear + load) runs to `body`,
`__aexit__` releases the lock on both the normal and the exceptional exit
and does not swallow the exception. -/
def cutover_section (st : Option CutoverDoc) (dcc : String)
    (nowAcq nowRel : Int) (body : Except String Unit) : CutoverRun :=
  let acquired := acquire_cutover_lock st dcc nowAcq
  let released := release_cutover_lock acquired nowRel
  ⟨acquired, body, released⟩

/-! ## Provider registry — `src/src/dcc2cvh/dcc_registry.py`

The sync service imports `cfdb.dcc_registry`, whose file is not under
`src/`; the registry is embedded from `src/src/dcc2cvh/dcc_registry.py`,
which spec section 6 requires to be identical in both packages.
-/

/-- The keys of `DCC_CONFIG` (`dcc_registry.py` lines 3-16). -/
def DCC_CONFIG_keys : List String := ["4dn", "hubmap"]

/-- `get_all_dcc_names()` (`dcc_registry.py` lines 53-60): the sorted
configuration keys (already in sorted order). -/
def get_all_dcc_names : List String := DCC_CONFIG_keys

/-- `normalize_dcc_name(name)` (`dcc_registry.py` lines 19-29):
`name.lower().strip()`. -/
def normalize_dcc_name (name : String) : String :=
  ⟨stripChars name.toLower.data⟩

/-! ## Sync trigger endpoint — `src/src/cfdb/api/routers/sync.py` and
`src/src/cfdb/services/sync.py` -/

/-- The running sync task returned by `start_sync` (`sync.py` services,
lines 35-44 and 86): status starts as `"running"`. -/
structure SyncTaskInfo where
  id : String
  dcc_names : List String
deriving DecidableEq, Repr

/-- Exceptions `start_sync` can raise: `ValueError` for an unknown provider,
`RuntimeError` when the lock is not acquired, and an uncaught store error. -/
inductive StartSyncErr
  | valueErr (msg : String)
  | runtimeErr (msg : String)
  | dbErr (e : MongoErr)
deriving DecidableEq, Repr

/-- `start_sync(task_id, dcc_names)` (`src/src/cfdb/services/sync.py`
lines 53-91): validates each requested name against the registry (the first
unknown one raises `ValueError`), normalizes the list (empty = all known),
then attempts `try_acquire_sync_lock`; `False` raises `RuntimeError`, and a
store exception propagates uncaught. On success returns the running task
and the new lock state. -/
def start_sync (lock : Option SyncLockDoc) (now : Int) (task_id : String)
    (dcc_names : List String) :
    Except StartSyncErr (SyncTaskInfo × Option SyncLockDoc) :=
  let valid := get_all_dcc_names
  match dcc_names.find? (fun d => !(valid.contains (normalize_dcc_name d))) with
  | some d =>
    .error (.valueErr ("Unknown DCC \x27" ++ d ++ "\x27. Available: " ++
      String.intercalate ", " valid))
  | none =>
    let normalized :=
      if dcc_names ≠ [] then dcc_names.map normalize_dcc_name else valid
    match try_acquire_sync_lock lock task_id normalized now with
    | .error e => .error (.dbErr e)
    | .ok (false, lock2) =>
      let _ := lock2
      .error (.runtimeErr "A sync task is already running")
    | .ok (true, lock2) => .ok (⟨task_id, normalized⟩, lock2)

/-- HTTP surface of the sync endpoint. `accepted` is the `202` body
(`SyncResponse`); `httpError` a raised `HTTPException`. -/
inductive SyncResp
  | accepted (task_id : String) (status : String) (dcc_names : List String)
      (message : String)
  | httpError (status : Nat) (detail : String)
deriving DecidableEq, Repr

/-- The guard expression of `src/src/cfdb/api/routers/sync.py` line 60,
`if is_sync_running():`. `is_sync_running` is an `async def`
(`src/src/cfdb/services/sync.py` line 48) and the call is not awaited, so
the expression is a coroutine object; Python truthiness of an object with
neither `__bool__` nor `__len__` is `True`, unconditionally. -/
def unawaited_is_sync_running_truthy : Bool := true

/-- The `sync` endpoint (`src/src/cfdb/api/routers/sync.py` lines 37-83),
after API-key verification: the unawaited `is_sync_running()` guard, then
`start_sync` with `ValueError` mapped to `400`, `RuntimeError` to `409`,
an unhandled store exception to FastAPI's `500`, and success to the `202`
`SyncResponse`. Returns the response and the resulting lock state. -/
def sync_endpoint (lock : Option SyncLockDoc) (now : Int) (task_id : String)
    (dccs : List String) : SyncResp × Option SyncLockDoc :=
  if unawaited_is_sync_running_truthy then
    (.httpError 409 "A sync task is already running. Please wait for it to complete.",
      lock)
  else
    match start_sync lock now task_id dccs with
    | .error (.valueErr m) => (.httpError 400 m, lock)
    | .error (.runtimeErr m) => (.httpError 409 m, lock)
    | .error (.dbErr _) => (.httpError 500 "Internal Server Error", lock)
    | .ok (task, lock2) =>
      (.accepted task.id "running" task.dcc_names
        ("Sync started for " ++ String.intercalate ", " task.dcc_names), lock2)

/-! ## Gateway access-policy step — `src/src/dcc2cvh/cvh/api/routers/data.py`
lines 151-218 -/

/-- Outcome of the HuBMAP access-level enforcement step. -/
inductive AccessDecision
  | proceed
  | forbidden (status : Nat) (detail : String)
deriving DecidableEq, Repr

/-- The consortium-tier message of `data.py` lines 199-205. -/
def consortium_access_message : String :=
  "This file requires consortium access. " ++
  "You must be a member of the HuBMAP consortium to access this file. " ++
  "Please authenticate with a Globus access token that has HuBMAP consortium membership. " ++
  "Obtain a token from https://app.globus.org/ and include it in the " ++
  "Authorization header as \x27Bearer <token>\x27."

/-- The protected-tier message of `data.py` lines 207-213. -/
def protected_access_message : String :=
  "This file requires protected access. " ++
  "This file contains protected data (genomic/HIPAA) and requires formal access approval. " ++
  "You must: (1) be a HuBMAP consortium member, and (2) have completed data use agreements. " ++
  "Please authenticate with a Globus access token and ensure you have the required access approvals. " ++
  "Contact HuBMAP support at help@hubmapconsortium.org for access requests."

/-- The enforcement step of `stream_file` for a HuBMAP file
(`src/src/dcc2cvh/cvh/api/routers/data.py` lines 186-218), applied to the
cached-or-freshly-fetched `data_access_level` and the extracted bearer
token: an unknown level proceeds (deferred enforcement); a `consortium` or
`protected` level raises `403` naming the tier only when the token is
absent or empty (`if not auth_token:`); any other level proceeds. -/
def hubmap_access_enforcement (data_access_level : Option String)
    (auth_token : Option String) : AccessDecision :=
  match data_access_level with
  | none => .proceed
  | some lvl =>
    if lvl = "consortium" ∨ lvl = "protected" then
      match auth_token with
      | none =>
        .forbidden 403
          (if lvl = "consortium" then consortium_access_message
           else protected_access_message)
      | some t =>
        if t = "" then
          .forbidden 403
            (if lvl = "consortium" then consortium_access_message
             else protected_access_message)
        else .proceed
    else .proceed

/-! ## Gateway direct-streaming branch —
`src/src/dcc2cvh/cvh/api/routers/data.py` lines 226-313 -/

/-- The top-level names defined by the module the router imports as `drs`
(`src/src/dcc2cvh/cvh/services/drs.py`): its classes and functions, in
source order. It defines no `parse_range_header` and no
`RangeNotSatisfiableError`; its `stream_from_url` takes the two parameters
`(url, auth_headers)`. -/
def cvhDrsModuleAttrs : List String :=
  ["DRSAccessMethod", "DRSObject", "parse_drs_uri", "fetch_drs_object",
   "extract_globus_info", "get_https_download_url", "stream_from_url"]

/-- Number of parameters of `stream_from_url` in
`src/src/dcc2cvh/cvh/services/drs.py` lines 192-195. -/
def cvh_stream_from_url_param_count : Nat := 2

/-- Responses of the direct-streaming (https) branch of `stream_file`. -/
inductive CvhHttpsResponse
  | streamed (status : Nat) (contentRange : Option String) (contentLength : Option Int)
  | httpError (status : Nat) (detail : String)
deriving DecidableEq, Repr

/-- The https branch of `stream_file`
(`src/src/dcc2cvh/cvh/api/routers/data.py` lines 226-313) as Python
executes it against the imported `dcc2cvh.cvh.services.drs` module
(`cvhDrsModuleAttrs`).

With a Range header: a falsy size (`if not drs_object.size:`) raises `500`;
otherwise the call `drs.parse_range_header(range, drs_object.size)` raises
`AttributeError` (the module defines no such attribute), evaluating the
clause `except drs.RangeNotSatisfiableError` raises a second
`AttributeError`, and the enclosing `except Exception` handler (line 311)
turns it into `502 "Failed to stream file"`; the `206`/`416`/`400` logic of
lines 256-285 is unreachable.

Without a Range header: `drs.stream_from_url(download_url, auth_headers,
range_header_to_send)` passes 3 positional arguments to a 2-parameter
function, raising `TypeError` at the call, again caught by
`except Exception` as `502`. -/
def stream_file_https_branch (range : Option String) (size : Option Int) :
    CvhHttpsResponse :=
  match range with
  | some _ =>
    if size = none ∨ size = some 0 then
      .httpError 500 "Cannot process range request: file size unavailable"
    else
      .httpError 502 "Failed to stream file"
  | none =>
    .httpError 502 "Failed to stream file"

/-! ## Managed-transfer bridge — `src/src/dcc2cvh/cvh/services/globus.py`
lines 29-152 -/

/-- Job status values reported by the transfer service
(`globus.py` lines 95, 114). -/
inductive TransferStatus
  | activeJob
  | succeeded
  | failed
deriving DecidableEq, Repr

/-- One iteration's observations in the poll loop of `transfer_and_stream`:
the job status fetched at the top of the iteration, the staging file's
contents at the read (`none` = the file does not exist yet), and the job's
`nice_status_details`. -/
structure PollObs where
  status : TransferStatus
  file : Option (List Nat)
  details : String
deriving DecidableEq, Repr

/-- How a run of the generator exits: the stream fully drained after job
success; the job failed (`raise Exception("Globus transfer failed: ...")`,
`globus.py` lines 121-124); or the consumer closed the generator, which
raises `GeneratorExit` at the paused yield — not caught by
`except Exception` (it is a `BaseException`) — so control reaches the
`finally` block directly. -/
inductive ExitKind
  | drained
  | jobFailed (msg : String)
  | closedEarly
deriving DecidableEq, Repr

/-- `f.seek(last_position); f.read(8192)` (`globus.py` lines 102-104). -/
def readChunk (file : Option (List Nat)) (pos : Nat) : List Nat :=
  match file with
  | none => []
  | some f => (f.drop pos).take 8192

/-- Auxiliary for `chunksOf`: walk the list with the current chunk
accumulated in reverse and the remaining capacity of that chunk. -/
def chunksOfAux (n : Nat) : List Nat → List Nat → Nat → List (List Nat)
  | [], acc, _ => if acc = [] then [] else [acc.reverse]
  | x :: xs, acc, 0 => acc.reverse :: chunksOfAux n xs [x] (n - 1)
  | x :: xs, acc, k + 1 => chunksOfAux n xs (x :: acc) k

/-- Split a byte list into successive chunks of at most `n` bytes, as the
`while chunk := f.read(8192)` loop of `globus.py` lines 133-135 reads it. -/
def chunksOf (n : Nat) (l : List Nat) : List (List Nat) :=
  chunksOfAux n l [] n

/-- Yield a prepared list of chunks to the consumer, one per loop iteration
(`globus.py` lines 133-135): `count` chunks were already yielded, and the
consumer may close the generator once it has received `closeAt` chunks in
total, which raises `GeneratorExit` at that yield and exits through the
`finally` block. The third component is whether the staging file still
exists after the `finally` block ran (`globus.py` lines 144-151 remove
it), i.e. `false` on every exit. -/
def applyClose : List (List Nat) → Nat → Option Nat →
    List (List Nat) × Option ExitKind × Bool
  | [], _, _ => ([], some .drained, false)
  | c :: rest, count, closeAt =>
    let cnt2 := count + 1
    if closeAt = some cnt2 then ([c], some .closedEarly, false)
    else
      let r := applyClose rest cnt2 closeAt
      (c :: r.1, r.2.1, r.2.2)

/-- The flush entered when the loop broke on `SUCCEEDED`
(`globus.py` lines 128-135): skipped when the staging file does not exist;
otherwise the remainder of the file from the last position is yielded in
8192-byte chunks. -/
def flushPhase (file : Option (List Nat)) (pos count : Nat) (closeAt : Option Nat) :
    List (List Nat) × Option ExitKind × Bool :=
  match file with
  | none => ([], some .drained, false)
  | some f => applyClose (chunksOf 8192 (f.drop pos)) count closeAt

/-- The poll loop of `transfer_and_stream` (`globus.py` lines 88-135) over a
trace of per-iteration observations, carrying the read position, the count
of chunks yielded so far, the close point, and whether the staging file
currently exists. Each iteration: fetch status; if the file exists read up
to 8192 new bytes and yield them when non-empty (the consumer closing the
generator at that yield exits through `finally`); break on a terminal
status — `FAILED` raises citing the job's diagnostic message, `SUCCEEDED`
enters the flush; otherwise sleep and repeat. Returns the yielded chunks,
how the generator exited (`none` = the trace ended with the loop still
polling), and whether the staging file exists afterwards (`false` whenever
the generator exited, because the `finally` block removed it). -/
def transferLoop : List PollObs → Nat → Nat → Option Nat → Bool →
    List (List Nat) × Option ExitKind × Bool
  | [], _, _, _, fileExists => ([], none, fileExists)
  | o :: rest, pos, count, closeAt, _ =>
    let c := readChunk o.file pos
    if c = [] then
      match o.status with
      | .failed => ([], some (.jobFailed ("Globus transfer failed: " ++ o.details)), false)
      | .succeeded => flushPhase o.file pos count closeAt
      | .activeJob => transferLoop rest pos count closeAt o.file.isSome
    else
      let cnt2 := count + 1
      if closeAt = some cnt2 then ([c], some .closedEarly, false)
      else
        let pos2 := pos + c.length
        match o.status with
        | .failed =>
          ([c], some (.jobFailed ("Globus transfer failed: " ++ o.details)), false)
        | .succeeded =>
          let r := flushPhase o.file pos2 cnt2 closeAt
          (c :: r.1, r.2.1, r.2.2)
        | .activeJob =>
          let r := transferLoop rest pos2 cnt2 closeAt o.file.isSome
          (c :: r.1, r.2.1, r.2.2)

/-- Result of one run of `transfer_and_stream` (`globus.py` lines 29-152):
the staging file is created by the transfer job during the run;
`stagingFileAfter` is whether it still exists once the generator is done
(still `true` only while the loop is genuinely still polling, i.e. the
observation trace ran out before any exit). -/
structure TransferResult where
  chunks : List (List Nat)
  exit : Option ExitKind
  stagingFileAfter : Bool
deriving DecidableEq, Repr

/-- `transfer_and_stream(source_endpoint, source_path, filename,
access_token)` (`globus.py` lines 29-152), abstracted over the job's
observable behaviour `obs` and the consumer's close point `closeAt`:
submit the transfer, run the poll loop from position 0 with no staging file
yet, and on every exit path run the `finally` cleanup. -/
def transfer_and_stream (obs : List PollObs) (closeAt : Option Nat) : TransferResult :=
  let r := transferLoop obs 0 0 closeAt false
  ⟨r.1, r.2.1, r.2.2⟩

/-! ## Streaming gateway entry — cutover wait before metadata reads

`cfdb/api/main.py` includes a data router (its line 10 pulls in
`cfdb.api.routers.data`) whose file is not under `src/`; only its caller and the
lock helper it uses (`wait_for_cutover`, whose docstring says it is called
by API endpoints to pause during database updates) are. The call site is
therefore modelled from the spec; the wait itself is `wait_for_cutover`
embedded above from `src/src/cfdb/services/locks.py`.
-/

/-- Response classes of the gateway entry relevant to the cutover barrier. -/
inductive GatewayWaitResponse
  | proceeded
  | serviceUnavailable
  | stillWaiting
deriving DecidableEq, Repr

/-- A gateway request attempt: the response class and whether any
metadata-store read was performed. -/
structure GatewayAttempt where
  response : GatewayWaitResponse
  metadataRead : Bool
deriving DecidableEq, Repr

/-- Modelled from the spec: the cfdb gateway's `stream_file` entry
(`cfdb/api/routers/data.py`, imported by `src/src/cfdb/api/main.py` but
absent from `src/`) performs, per spec sections 2 and 4.5 step 2, the
bounded `wait_for_cutover` before any metadata-store read; a `TimeoutError`
from the wait is surfaced as a server-unavailable response and no read is
performed. The wait itself is the source-embedded `wait_for_cutover`. -/
def gateway_stream_request (obs : List Bool) : GatewayAttempt :=
  match wait_for_cutover obs with
  | .cleared _ => ⟨.proceeded, true⟩
  | .timedOut _ => ⟨.serviceUnavailable, false⟩
  | .stillPolling => ⟨.stillWaiting, false⟩

/-! ## Helper lemmas -/

/-- An element that does not satisfy the predicate is never removed by
`dropWhile`. -/
theorem mem_dropWhile_of_mem {α} {p : α → Bool} {c : α} :
    ∀ {l : List α}, c ∈ l → p c = false → c ∈ l.dropWhile p := by
  intro l hc hp
  induction l with
  | nil => cases hc
  | cons a t ih =>
    rw [List.dropWhile_cons]
    rcases List.mem_cons.mp hc with h | h
    · subst h
      rw [hp]
      simp
    · cases hpa : p a with
      | true => simpa [hpa] using ih h
      | false => simp [hpa, hc]

/-- `str.strip()` removes only whitespace: any non-whitespace member
survives. -/
theorem mem_stripChars {c : Char} {l : List Char} (hc : c ∈ l)
    (hp : isPySpace c = false) : c ∈ stripChars l := by
  unfold stripChars
  rw [List.mem_reverse]
  exact mem_dropWhile_of_mem (List.mem_reverse.mpr (mem_dropWhile_of_mem hc hp)) hp

/-- A `cleared` outcome of the cutover poll loop happened at an iteration
that observed the lock inactive, and (when started within the bound)
no later than elapsed 601 deciseconds. -/
theorem waitLoop_cleared :
    ∀ (obs : List Bool) (i j : Nat), i ≤ 601 → waitLoop obs i = .cleared j →
      obs.get? (j - i) = some false ∧ i ≤ j ∧ j ≤ 601 := by
  intro obs
  induction obs with
  | nil => intro i j _ h; simp [waitLoop] at h
  | cons a rest ih =>
    intro i j hi h
    rw [waitLoop] at h
    by_cases ha : a = false
    · rw [if_pos ha] at h
      injection h with hij
      subst hij
      refine ⟨?_, le_refl i, hi⟩
      rw [Nat.sub_self]
      simp [ha]
    · rw [if_neg ha] at h
      by_cases hi6 : i > 600
      · rw [if_pos hi6] at h
        exact absurd h (by simp)
      · rw [if_neg hi6] at h
        obtain ⟨h1, h2, h3⟩ := ih (i + 1) j (by omega) h
        refine ⟨?_, by omega, h3⟩
        have hji : j - i = (j - (i + 1)) + 1 := by omega
        rw [hji]
        simpa using h1

/-- The cutover poll loop performs a bounded number of iterations: a trace
long enough to outlast the timeout cannot leave it still polling. -/
theorem waitLoop_bounded :
    ∀ (obs : List Bool) (i : Nat), 602 ≤ i + obs.length → i ≤ 601 →
      waitLoop obs i ≠ .stillPolling := by
  intro obs
  induction obs with
  | nil => intro i hlen hi h; simp at hlen; omega
  | cons a rest ih =>
    intro i hlen hi h
    rw [waitLoop] at h
    by_cases ha : a = false
    · rw [if_pos ha] at h; exact absurd h (by simp)
    · rw [if_neg ha] at h
      by_cases hi6 : i > 600
      · rw [if_pos hi6] at h; exact absurd h (by simp)
      · rw [if_neg hi6] at h
        exact ih (i + 1) (by simp at hlen ⊢; omega) (by omega) h

/-- Yielding prepared chunks always exits (drained or closed early), never
as a job failure, and always leaves the staging file removed. -/
theorem applyClose_exit :
    ∀ (cs : List (List Nat)) (count : Nat) (closeAt : Option Nat),
      (applyClose cs count closeAt).2.2 = false
    ∧ (applyClose cs count closeAt).2.1.isSome = true
    ∧ ∀ m, (applyClose cs count closeAt).2.1 ≠ some (.jobFailed m) := by
  intro cs
  induction cs with
  | nil => intro count closeAt; simp [applyClose]
  | cons c rest ih =>
    intro count closeAt
    simp only [applyClose]
    by_cases h : closeAt = some (count + 1)
    · simp [h]
    · obtain ⟨i1, i2, i3⟩ := ih (count + 1) closeAt
      simp [h, i1, i2]
      exact i3

/-- The flush after job success always exits without a job failure and
leaves the staging file removed. -/
theorem flushPhase_exit (f : Option (List Nat)) (pos count : Nat) (closeAt : Option Nat) :
    (flushPhase f pos count closeAt).2.2 = false
  ∧ (flushPhase f pos count closeAt).2.1.isSome = true
  ∧ ∀ m, (flushPhase f pos count closeAt).2.1 ≠ some (.jobFailed m) := by
  cases f with
  | none => simp [flushPhase]
  | some l => simpa [flushPhase] using applyClose_exit (chunksOf 8192 (l.drop pos)) count closeAt

/-- Over any observation trace: whenever the poll loop exits, the staging
file has been removed, and a job-failure exit carries a message citing the
job's diagnostic details after the fixed prefix. -/
theorem transferLoop_cleanup :
    ∀ (obs : List PollObs) (pos count : Nat) (closeAt : Option Nat) (fe : Bool),
      (∀ e, (transferLoop obs pos count closeAt fe).2.1 = some e →
        (transferLoop obs pos count closeAt fe).2.2 = false)
    ∧ (∀ m, (transferLoop obs pos count closeAt fe).2.1 = some (.jobFailed m) →
        "Globus transfer failed: ".data <+: m.data) := by
  intro obs
  induction obs with
  | nil =>
    intro pos count closeAt fe
    constructor
    · intro e he; simp [transferLoop] at he
    · intro m hm; simp [transferLoop] at hm
  | cons o rest ih =>
    intro pos count closeAt fe
    obtain ⟨st, f, dt⟩ := o
    by_cases hc : readChunk f pos = []
    · cases st with
      | activeJob =>
        simpa only [transferLoop, hc, if_pos] using ih pos count closeAt f.isSome
      | succeeded =>
        have hf := flushPhase_exit f pos count closeAt
        constructor
        · intro e _; simpa only [transferLoop, hc, if_pos] using hf.1
        · intro m hm
          exact absurd (by simpa only [transferLoop, hc, if_pos] using hm) (hf.2.2 m)
      | failed =>
        constructor
        · intro e _; simp [transferLoop, hc]
        · intro m hm
          simp only [transferLoop, hc, if_pos, Option.some.injEq] at hm
          have hmm : m = "Globus transfer failed: " ++ dt := by
            cases hm; rfl
          subst hmm
          exact ⟨dt.data, (String.data_append _ _).symm⟩
    · by_cases hcl : closeAt = some (count + 1)
      · constructor
        · intro e _
          simp [transferLoop, if_neg hc, hcl]
        · intro m hm
          simp [transferLoop, if_neg hc, hcl] at hm
      · cases st with
        | activeJob =>
          have hi := ih (pos + (readChunk f pos).length) (count + 1) closeAt f.isSome
          constructor
          · intro e he
            simp only [transferLoop, if_neg hc, if_neg hcl] at he ⊢
            exact hi.1 e he
          · intro m hm
            simp only [transferLoop, if_neg hc, if_neg hcl] at hm
            exact hi.2 m hm
        | succeeded =>
          have hf := flushPhase_exit f (pos + (readChunk f pos).length) (count + 1) closeAt
          constructor
          · intro e he
            simp only [transferLoop, if_neg hc, if_neg hcl]
            exact hf.1
          · intro m hm
            simp only [transferLoop, if_neg hc, if_neg hcl] at hm
            exact absurd hm (hf.2.2 m)
        | failed =>
          constructor
          · intro e _
            simp [transferLoop, if_neg hc, if_neg hcl]
          · intro m hm
            simp only [transferLoop, if_neg hc, if_neg hcl, Option.some.injEq] at hm
            have hmm : m = "Globus transfer failed: " ++ dt := by
              cases hm; rfl
            subst hmm
            exact ⟨dt.data, (String.data_append _ _).symm⟩

/-! ## Claim theorems -/

/-- Claim C1: for every gateway request, the gateway waits on the cutover
lock before performing any metadata-store read — a metadata read happens
only after an iteration of `wait_for_cutover` observed the lock inactive,
within the 60 s (601 decisecond-iteration) bound; a timed-out wait is
surfaced as a server-unavailable response with no read performed; and the
wait is bounded: a trace outlasting the bound cannot leave the loop
polling. -/
theorem C1_gateway_waits_on_cutover (obs : List Bool) :
    ((gateway_stream_request obs).metadataRead = true →
      ∃ i, wait_for_cutover obs = .cleared i ∧ obs.get? i = some false ∧ i ≤ 601)
  ∧ (∀ i, wait_for_cutover obs = .timedOut i →
      (gateway_stream_request obs).response = .serviceUnavailable ∧
      (gateway_stream_request obs).metadataRead = false)
  ∧ (601 < obs.length → wait_for_cutover obs ≠ .stillPolling) := by
  refine ⟨?_, ?_, ?_⟩
  · intro hread
    cases hw : wait_for_cutover obs with
    | cleared i =>
      obtain ⟨h1, _, h3⟩ := waitLoop_cleared obs 0 i (by omega) hw
      exact ⟨i, rfl, by simpa using h1, h3⟩
    | timedOut i => simp [gateway_stream_request, hw] at hread
    | stillPolling => simp [gateway_stream_request, hw] at hread
  · intro i hw
    simp [gateway_stream_request, hw]
  · intro hlen
    exact waitLoop_bounded obs 0 (by omega) (by omega)

/-- Witness for C1: with the cutover lock observed held at every poll for
longer than the timeout, the gateway returns server-unavailable and
performs no metadata read. -/
theorem C1_witness :
    (gateway_stream_request (List.replicate 603 true)).response =
      GatewayWaitResponse.serviceUnavailable ∧
    (gateway_stream_request (List.replicate 603 true)).metadataRead = false :=
  (C1_gateway_waits_on_cutover (List.replicate 603 true)).2.1 601 (by decide)

/-- Claim C2: the sync endpoint is claimed to return 202 with a fresh task
id when no sync is running. In the source the guard
`if is_sync_running():` is not awaited, so its coroutine object is truthy
and the endpoint raises `409` for every request, regardless of the lock
state and of the requested providers; the 202/400 paths are unreachable. -/
theorem C2_sync_endpoint_always_409 (lock : Option SyncLockDoc) (now : Int)
    (task_id : String) (dccs : List String) :
    (sync_endpoint lock now task_id dccs).1 =
      .httpError 409 "A sync task is already running. Please wait for it to complete." :=
  rfl

/-- Claim C3: of two acquire attempts with distinct task ids against a
store with no active fresh lock, the first returns `true`; the second does
not return `false` — its upsert attempts to insert the already-present
`_id` and the store raises `DuplicateKeyError`, which
`try_acquire_sync_lock` does not catch. -/
theorem C3_acquire_race_loser_raises :
    try_acquire_sync_lock none "t1" ["4dn"] 0 =
      .ok (true, some ⟨true, "t1", ["4dn"], 0, 0, none⟩)
  ∧ try_acquire_sync_lock (some ⟨true, "t1", ["4dn"], 0, 0, none⟩) "t2" ["4dn"] 0 =
      .error .duplicateKey := by
  constructor <;> rfl

/-- Claim C7: a lock document whose `started_at` is older than the 1-hour
staleness threshold is acquirable by a new task id even though `active` is
still true and the holder never released, and `is_sync_running` reports
false for it. -/
theorem C7_stale_lock_self_healing (d : SyncLockDoc) (now : Int) (tid : String)
    (dccs : List String) (hstale : d.started_at < now - STALE_LOCK_THRESHOLD)
    (hactive : d.active = true) (_hnew : tid ≠ d.task_id) :
    try_acquire_sync_lock (some d) tid dccs now =
      .ok (true, some ⟨true, tid, dccs, now, now, d.completed_at⟩)
  ∧ is_sync_running (some d) now = false := by
  constructor
  · have hm : syncFilterMatches d now = true := by
      simp [syncFilterMatches]
      omega
    simp [try_acquire_sync_lock, findOneAndUpdateSyncLock, hm]
  · simp only [is_sync_running]
    rw [if_neg (by simp [hactive]), if_pos (by omega)]

/-- Witness for C7: a lock started at time 0 and still active is reclaimed
by a new task at time 4000 (more than one hour later), and reported as not
running. -/
theorem C7_witness :
    try_acquire_sync_lock (some ⟨true, "old-task", [], 0, 0, none⟩) "new-task"
        ["4dn"] 4000 =
      .ok (true, some ⟨true, "new-task", ["4dn"], 4000, 4000, none⟩)
  ∧ is_sync_running (some ⟨true, "old-task", [], 0, 0, none⟩) 4000 = false :=
  C7_stale_lock_self_healing ⟨true, "old-task", [], 0, 0, none⟩ 4000 "new-task"
    ["4dn"] (by decide) rfl (by decide)

/-- Claim C8: the cutover block acquires the lock immediately before the
record swap and releases it on every exit path: during the body the lock is
active for the provider, after the block exits — normally or by an
exception, which propagates — the lock document exists with `active =
false` and the release timestamp. -/
theorem C8_cutover_lock_never_leaks (st : Option CutoverDoc) (dcc : String)
    (nowAcq nowRel : Int) (body : Except String Unit) :
    (∃ d, (cutover_section st dcc nowAcq nowRel body).duringBody = some d ∧
      d.active = true ∧ d.dcc = dcc ∧ d.started_at = nowAcq)
  ∧ (∃ d, (cutover_section st dcc nowAcq nowRel body).finalLock = some d ∧
      d.active = false ∧ d.completed_at = some nowRel)
  ∧ (cutover_section st dcc nowAcq nowRel body).result = body := by
  cases st with
  | none =>
    exact ⟨⟨⟨true, dcc, nowAcq, none⟩, rfl, rfl, rfl, rfl⟩,
      ⟨⟨false, dcc, nowAcq, some nowRel⟩, rfl, rfl, rfl⟩, rfl⟩
  | some d =>
    exact ⟨⟨⟨true, dcc, nowAcq, d.completed_at⟩, rfl, rfl, rfl, rfl⟩,
      ⟨⟨false, dcc, nowAcq, some nowRel⟩, rfl, rfl, rfl⟩, rfl⟩

/-- Claim C9: every exit of the managed-transfer bridge — drained success,
job failure, or early generator termination — leaves the staging file
removed, and a job-failure exit raises citing the job's diagnostic message
after the fixed prefix. -/
theorem C9_staging_file_always_removed (obs : List PollObs) (closeAt : Option Nat) :
    (∀ e, (transfer_and_stream obs closeAt).exit = some e →
      (transfer_and_stream obs closeAt).stagingFileAfter = false)
  ∧ (∀ m, (transfer_and_stream obs closeAt).exit = some (.jobFailed m) →
      "Globus transfer failed: ".data <+: m.data) := by
  have h := transferLoop_cleanup obs 0 0 closeAt false
  exact ⟨fun e he => h.1 e he, fun m hm => h.2 m hm⟩

/-- Witness for C9: a run that streams two chunks and drains after job
success leaves the staging file removed, and a run whose job fails exits
with a message carrying the fixed prefix before the job's diagnostic
details. -/
theorem C9_witness :
    (transfer_and_stream
      [⟨.activeJob, some [1, 2, 3], "ok"⟩, ⟨.succeeded, some [1, 2, 3, 4, 5], "ok"⟩]
      none).stagingFileAfter = false
  ∧ "Globus transfer failed: ".data <+:
      ("Globus transfer failed: " ++ "endpoint offline").data :=
  ⟨(C9_staging_file_always_removed
      [⟨.activeJob, some [1, 2, 3], "ok"⟩, ⟨.succeeded, some [1, 2, 3, 4, 5], "ok"⟩]
      none).1 .drained (by decide),
   (C9_staging_file_always_removed [⟨.failed, none, "endpoint offline"⟩] none).2
      ("Globus transfer failed: " ++ "endpoint offline") (by decide)⟩

/-- Claim C4: the range negotiator reproduces the spec's test vectors and
boundary rules — the five concrete vectors at size 1000; for every positive
size, `start > end` is malformed, a well-formed range starting at or past
the size raises `NotSatisfiable` carrying the size, an overshooting end is
clamped to `size - 1`, and a multi-range spec is rejected as malformed. -/
theorem C4_range_negotiation (N : Int) (hN : 0 < N) :
    parse_range_header "bytes=0-99".data 1000 = .ok (0, 99, 100)
  ∧ parse_range_header "bytes=900-".data 1000 = .ok (900, 999, 100)
  ∧ parse_range_header "bytes=-10".data 1000 = .ok (990, 999, 10)
  ∧ parse_range_header "bytes=1000-1010".data 1000 = .error (.notSatisfiable 1000)
  ∧ parse_range_header "bytes=50-10".data 1000 =
      .error (.valueError "Start byte must be <= end byte")
  ∧ (∀ s e : Int, 0 ≤ s → 0 ≤ e → s > e →
      checkBounds s e N = .error (.valueError "Start byte must be <= end byte"))
  ∧ (∀ s e : Int, 0 ≤ s → s ≤ e → N ≤ s →
      checkBounds s e N = .error (.notSatisfiable N))
  ∧ (∀ s e : Int, 0 ≤ s → s ≤ e → s < N → N ≤ e →
      checkBounds s e N = .ok (s, N - 1, N - 1 - s + 1))
  ∧ (∀ raw : List Char, ',' ∈ raw →
      parse_range_header ("bytes=".data ++ raw) N =
        .error (.valueError "Multipart range requests are not supported")) := by
  refine ⟨by decide, by decide, by decide, by decide, by decide, ?_, ?_, ?_, ?_⟩
  · intro s e h0s h0e hse
    simp only [checkBounds]
    rw [if_neg (by omega), if_pos hse]
  · intro s e h0s hse hNs
    simp only [checkBounds]
    rw [if_neg (by omega), if_neg (by omega), if_pos (by omega)]
  · intro s e h0s hse hsN hNe
    simp only [checkBounds]
    rw [if_neg (by omega), if_neg (by omega), if_neg (by omega)]
    have hmin : min e (N - 1) = N - 1 := min_eq_right (by omega)
    simp [hmin]
  · intro raw hc
    have hpre : "bytes=".data.isPrefixOf ("bytes=".data ++ raw) = true := by
      rw [List.isPrefixOf_iff_prefix]
      exact ⟨raw, rfl⟩
    have h6 : ("bytes=".data).length = 6 := rfl
    have hd : ("bytes=".data ++ raw).drop 6 = raw := by
      rw [← h6, List.drop_left]
    rw [parse_range_header, if_pos hpre, hd]
    have hmem : ',' ∈ stripChars raw := mem_stripChars hc (by decide)
    have hcontains : (stripChars raw).contains ',' = true :=
      List.elem_eq_true_of_mem hmem
    rw [parseRangeSpec, if_pos hcontains]

/-- Witness for C4: at size 1000 an overshooting end (2000) is clamped to
999 with the corresponding content length. -/
theorem C4_witness :
    checkBounds 5 2000 1000 = .ok (5, 1000 - 1, 1000 - 1 - 5 + 1) :=
  (C4_range_negotiation 1000 (by decide)).2.2.2.2.2.2.2.1 5 2000 (by decide)
    (by decide) (by decide) (by decide)

/-- Claim C10: for the suffix form `bytes=-N` at positive size, a parsed
suffix length of zero or less raises `ValueError` (not `NotSatisfiable`),
and a positive one returns `(max(0, size - N), size - 1, min(N, size))` —
a suffix longer than the file yields the whole file; the concrete textual
instances at size 1000 confirm the string-level behaviour. -/
theorem C10_suffix_range_form (N : Int) (hN : 0 < N) :
    (∀ n : Int, n ≤ 0 →
      suffixBranch n N = .error (.valueError "Suffix length must be positive"))
  ∧ (∀ n : Int, 0 < n →
      suffixBranch n N = .ok (max 0 (N - n), N - 1, min n N))
  ∧ parse_range_header "bytes=-10".data 1000 = .ok (990, 999, 10)
  ∧ parse_range_header "bytes=-0".data 1000 =
      .error (.valueError "Suffix length must be positive")
  ∧ parse_range_header "bytes=--5".data 1000 =
      .error (.valueError "Suffix length must be positive")
  ∧ parse_range_header "bytes=-2000".data 1000 = .ok (0, 999, 1000) := by
  refine ⟨?_, ?_, by decide, by decide, by decide, by decide⟩
  · intro n hn
    simp only [suffixBranch]
    rw [if_pos hn]
  · intro n hn
    simp only [suffixBranch, checkBounds]
    rw [if_neg (by omega), if_neg (by omega), if_neg (by omega), if_neg (by omega)]
    rw [min_self]
    simp only [Except.ok.injEq, Prod.mk.injEq, true_and]
    omega

/-- Witness for C10: a 10-byte suffix of a 1000-byte file is bytes 990-999
with length 10, through the general suffix formula. -/
theorem C10_witness :
    suffixBranch 10 1000 = .ok (max 0 (1000 - 10), 1000 - 1, min 10 1000) :=
  (C10_suffix_range_form 1000 (by decide)).2.1 10 (by decide)

/-- The module the gateway router imports as `drs` defines no
`parse_range_header` attribute (see `cvhDrsModuleAttrs`). -/
theorem cvhDrs_lacks_parse_range_header :
    ¬ ("parse_range_header" ∈ cvhDrsModuleAttrs) ∧
    cvh_stream_from_url_param_count < 3 := by
  constructor
  · decide
  · decide

/-- Claim C5: a direct-streaming request with a satisfiable Range is claimed
to get `206` with `Content-Range`/`Content-Length` (1 byte for
`bytes=0-0`), `416` for an unsatisfiable and `400` for a malformed range.
In the source every such request instead gets `502 "Failed to stream
file"` — the router calls `drs.parse_range_header`, which its imported
`drs` module does not define, and calls `stream_from_url` with one
positional argument too many — while the cfdb negotiator the claim
describes would indeed return exactly 1 byte for `bytes=0-0`. -/
theorem C5_https_branch_is_502 :
    stream_file_https_branch (some "bytes=0-0") (some 1000) =
      .httpError 502 "Failed to stream file"
  ∧ stream_file_https_branch (some "bytes=1000-1010") (some 1000) =
      .httpError 502 "Failed to stream file"
  ∧ stream_file_https_branch (some "bytes=50-10") (some 1000) =
      .httpError 502 "Failed to stream file"
  ∧ stream_file_https_branch none (some 1000) =
      .httpError 502 "Failed to stream file"
  ∧ parse_range_header "bytes=0-0".data 1000 = .ok (0, 0, 1) := by
  refine ⟨rfl, rfl, rfl, rfl, by decide⟩

/-- Counterexample for claim C6: the claim asserts a restricted-tier file is
rejected with `403` regardless of any supplied bearer credential; in the
source a `consortium`-level file with a bearer token supplied proceeds —
no `403` is raised (`AccessDecision.proceed` is a different constructor
from every `forbidden 403 _`). -/
theorem C6_counterexample :
    hubmap_access_enforcement (some "consortium") (some "some-globus-token") =
      .proceed
  ∧ hubmap_access_enforcement (some "protected") (some "some-globus-token") =
      .proceed := by
  constructor <;> rfl

/-- Claim C6 as amended: a restricted-tier (`consortium` or `protected`)
file is rejected with a `403` whose message names the required tier when no
bearer credential is supplied; a supplied non-empty credential lets the
request proceed (the source implements the spec's credential-based variant,
not the outright-block variant). -/
theorem C6_restricted_tier_403_without_token (lvl tok : Option String)
    (hres : lvl = some "consortium" ∨ lvl = some "protected")
    (htok : tok = none) :
    ∃ m tier, hubmap_access_enforcement lvl tok = .forbidden 403 m ∧
      lvl = some tier ∧ tier.data <:+: m.data := by
  subst htok
  rcases hres with h | h
  · subst h
    exact ⟨consortium_access_message, "consortium", rfl, rfl, by decide⟩
  · subst h
    exact ⟨protected_access_message, "protected", rfl, rfl, by decide⟩

/-- Witness for the amended C6: a consortium-level file with no credential
is rejected with a 403 naming the tier. -/
theorem C6_witness :
    ∃ m tier,
      hubmap_access_enforcement (some "consortium") none = .forbidden 403 m ∧
      (some "consortium" : Option String) = some tier ∧ tier.data <:+: m.data :=
  C6_restricted_tier_403_without_token (some "consortium") none (Or.inl rfl) rfl
